import Mathlib

/-!
Verification development for the insight-tracker cross-store consistency
engine: a shallow embedding of the distributed lock and cache client
(src/backend/app/db/redis.py), the retry wrapper shared by both store
clients (redis.py / neo4j.py), the transactional batch executor and the
full reconciliation sweep (src/backend/app/db/consistency.py), and the
entity sync operation (src/backend/app/db/database.py together with
src/backend/app/db/neo4j.py).

Python dictionaries and the Redis database are modelled as association
lists; Python sets are modelled as deduplicated lists (iteration order of
a Python set is arbitrary, so every proved statement about set iteration
is order-insensitive); Python runtime values that flow through
dynamically-typed code are modelled by the inductive type PyVal.
-/

namespace InsightTracker


/-! ## Key-value store model (Redis)

The store maps keys to (value, ttl) pairs.  redis.py is created with
decode_responses=True, so stored and returned values are strings.
-/

/-- A Redis database state: key, then (stored value, remaining ttl). -/
abbrev KV := List (String × String × Nat)

/-- Lookup of a key in the store. -/
def kvLookup (st : KV) (k : String) : Option (String × Nat) :=
  match st with
  | [] => none
  | (k', v) :: rest => if k' = k then some v else kvLookup rest k

/-- Redis SET with nx=True, ex=ttl (redis.py:303-305): if the key is
absent it is created with the given value and expiry and the reply is
the string OK; if the key is present nothing changes and the reply is
None (modelled as none). -/
def redisSetNX (st : KV) (k v : String) (ttl : Nat) : KV × Option String :=
  match kvLookup st k with
  | some _ => (st, none)
  | none => ((k, v, ttl) :: st, some "OK")

/-- Redis GET (value only, as redis.py uses it). -/
def redisGet (st : KV) (k : String) : Option String :=
  (kvLookup st k).map (·.1)

/-- Redis DELETE of a single key. -/
def redisDel (st : KV) (k : String) : KV :=
  st.filter (fun e => ¬ e.1 = k)

/-- The lock key scheme of redis.py:303 and 321: lock:name. -/
def lockKey (name : String) : String := "lock:" ++ name

/-- RedisClient.acquire_lock (redis.py:290-306): SET key value nx=True
ex=ttl via the retry wrapper, then return (result is not None). -/
def acquire_lock (st : KV) (lock_name lock_value : String) (ttl : Nat) :
    KV × Bool :=
  let r := redisSetNX st (lockKey lock_name) lock_value ttl
  (r.1, r.2.isSome)

/-- RedisClient.release_lock (redis.py:308-328): read the current value
at the lock key; if it differs from the caller value return False and
change nothing, otherwise delete the key and return True. -/
def release_lock (st : KV) (lock_name lock_value : String) : KV × Bool :=
  let current := redisGet st (lockKey lock_name)
  if ¬ current = some lock_value then (st, false)
  else (redisDel st (lockKey lock_name), true)

/-! ## Retry wrapper model (redis.py:114-141, neo4j.py:133-160)

Both resilient store clients share the same wrapper: attempts 1 to
max_retry_attempts; a transient failure at attempt k < max sleeps
retry_delay * 2^(k-1) and retries; a transient failure at the last
attempt re-raises the caught exception; a success returns at once.
The behaviour of the wrapped operation is a function from the attempt
number to an Except value, errors carried as strings (the message of
the exception object, re-raised unchanged by the bare raise).
-/

/-- Observable outcome of one run of the retry wrapper: the result (or
re-raised error), the sleep durations in order, and the list of attempt
numbers at which the operation was invoked. -/
structure RetryTrace (α : Type) where
  result : Except String α
  sleeps : List ℚ
  calls : List Nat
  deriving Repr

/-- The retry loop from attempt k with the given remaining attempt
budget (fuel = max_retry_attempts - k + 1 at entry). -/
def retryLoop (base : ℚ) (op : Nat → Except String α) :
    Nat → Nat → RetryTrace α
  | _, 0 => ⟨.error "", [], []⟩
  | k, fuel + 1 =>
    match op k with
    | .ok a => ⟨.ok a, [], [k]⟩
    | .error e =>
      if fuel = 0 then ⟨.error e, [], [k]⟩
      else
        let r := retryLoop base op (k + 1) fuel
        ⟨r.result, base * 2 ^ (k - 1) :: r.sleeps, k :: r.calls⟩

/-- _execute_with_retry: run the operation for attempts 1..maxAttempts
with exponential backoff base * 2^(attempt-1) between failed attempts. -/
def execute_with_retry (maxAttempts : Nat) (base : ℚ)
    (op : Nat → Except String α) : RetryTrace α :=
  retryLoop base op 1 maxAttempts

/-- RedisClient.acquire_lock when the SET NX round trip itself is left
abstract per attempt (redis.py:303-306): the retried operation yields
the raw Redis reply (some reply string or none), and on a retained
result the method returns (result is not None). An exhausted retry
budget propagates the error to the caller. -/
def acquire_lock_resilient (maxAttempts : Nat) (base : ℚ)
    (op : Nat → Except String (Option String)) : Except String Bool :=
  match (execute_with_retry maxAttempts base op).result with
  | .ok r => .ok r.isSome
  | .error e => .error e

/-! ## Python runtime values and the batch executor
(DatabaseConsistencyManager.ensure_transaction, consistency.py:192-231)

A step of the batch either returns a Python value or raises.  The
executor inspects the returned value with isinstance(result, tuple) and
len(result) == 2, unpacks it into (mongo_op, neo4j_op), and appends
each component to its per-store list when it is truthy.  On the first
exception it stops and invokes, for each collected entry that satisfies
callable(), first the Neo4j list reversed and then the MongoDB list
reversed.  Invoking a compensation is modelled as appending its label
to a rollback log.
-/

/-- A dynamically-typed Python value as the executor can observe it. -/
inductive PyVal where
  | pynone : PyVal
  | pybool : Bool → PyVal
  | pystr : String → PyVal
  | pyint : Int → PyVal
  | pytuple : List PyVal → PyVal
  | pylist : List PyVal → PyVal
  | pydict : List (String × PyVal) → PyVal
  | pyfun : String → PyVal

/-- Python truthiness for the values above (None, False, empty string,
zero, and empty containers are falsy; a function object is truthy). -/
def PyVal.truthy : PyVal → Bool
  | .pynone => false
  | .pybool b => b
  | .pystr s => ¬ s = ""
  | .pyint n => ¬ n = 0
  | .pytuple l => ¬ l.isEmpty
  | .pylist l => ¬ l.isEmpty
  | .pydict l => ¬ l.isEmpty
  | .pyfun _ => true

/-- Python value is None. -/
def PyVal.isNone : PyVal → Bool
  | .pynone => true
  | _ => false

/-- Python callable() for the values above. -/
def PyVal.isCallable : PyVal → Bool
  | .pyfun _ => true
  | _ => false

/-- The isinstance(result, tuple) and len(result) == 2 test of
consistency.py:206. -/
def PyVal.isPair : PyVal → Bool
  | .pytuple [_, _] => true
  | _ => false

/-- Outcome of invoking one batch step: a returned value or a raised
exception. -/
inductive StepOutcome where
  | ret : PyVal → StepOutcome
  | exn : StepOutcome

/-- Contribution of one returned step value to the two compensation
lists (consistency.py:206-211): unpack a two-tuple and append each
component when truthy; any other value contributes nothing. -/
def stepAccum (m n : List PyVal) : PyVal → List PyVal × List PyVal
  | .pytuple [a, b] =>
    (if a.truthy then m ++ [a] else m, if b.truthy then n ++ [b] else n)
  | _ => (m, n)

/-- The labels of the collected entries that pass the callable() check,
in invocation order. -/
def invokeAll (ops : List PyVal) : List String :=
  ops.filterMap fun v =>
    match v with
    | .pyfun label => some label
    | _ => none

/-- Rollback of consistency.py:220-229: the Neo4j list reversed, then
the MongoDB list reversed, each entry invoked only if callable. -/
def rollbackLog (m n : List PyVal) : List String :=
  invokeAll n.reverse ++ invokeAll m.reverse

/-- The executor loop with the two accumulated compensation lists:
returns the method's return value paired with the rollback invocation
log (empty on success). -/
def ensureTransactionAux (m n : List PyVal) :
    List StepOutcome → Bool × List String
  | [] => (true, [])
  | .ret v :: rest =>
    ensureTransactionAux (stepAccum m n v).1 (stepAccum m n v).2 rest
  | .exn :: _ => (false, rollbackLog m n)

/-- DatabaseConsistencyManager.ensure_transaction over the outcomes of
its ordered operations. -/
def ensure_transaction (ops : List StepOutcome) : Bool × List String :=
  ensureTransactionAux [] [] ops

/-- Fold a list of returned step values into the two compensation
lists, starting from given accumulators. -/
def collectComps (m n : List PyVal) : List PyVal → List PyVal × List PyVal
  | [] => (m, n)
  | v :: rest => collectComps (stepAccum m n v).1 (stepAccum m n v).2 rest

/-! ## Full reconciliation sweep
(DatabaseConsistencyManager.perform_full_consistency_check,
consistency.py:144-190, and _create_insight_in_neo4j,
consistency.py:103-142)

The document store is a list of insight documents; the graph store
holds the Insight nodes (a list, since Cypher CREATE can produce
duplicate nodes for one id) plus the HAS_TAG edges produced by the
MERGE in _create_insight_in_neo4j, as (insight id, tag) pairs.
-/

/-- A MongoDB insight document, restricted to the fields the
consistency module reads. -/
structure MongoInsight where
  mongoId : String
  title : String
  userId : String
  createdAt : Option String
  tags : List String

/-- An Insight node as created by _create_insight_in_neo4j
(consistency.py:113-129): properties id, title, user_id, created_at. -/
structure InsightNode where
  id : String
  title : String
  userId : String
  createdAt : Option String

/-- The graph store: Insight nodes and HAS_TAG edges. -/
structure GraphState where
  nodes : List InsightNode
  tagEdges : List (String × String)

/-- The MERGE of a HAS_TAG edge (consistency.py:132-141): add the edge
only when it is not already present. -/
def mergeTagEdge (g : GraphState) (id tag : String) : GraphState :=
  if (id, tag) ∈ g.tagEdges then g
  else { g with tagEdges := g.tagEdges ++ [(id, tag)] }

/-- _create_insight_in_neo4j: CREATE one Insight node carrying id,
title, user_id, created_at, then MERGE a HAS_TAG edge per tag. -/
def create_insight_in_neo4j (g : GraphState) (doc : MongoInsight) :
    GraphState :=
  let g1 : GraphState :=
    { g with nodes :=
        g.nodes ++ [⟨doc.mongoId, doc.title, doc.userId, doc.createdAt⟩] }
  doc.tags.foldl (fun acc tag => mergeTagEdge acc doc.mongoId tag) g1

/-- MATCH (i:Insight with the given id) DETACH DELETE i: remove every
node with that id and every edge attached to it. -/
def detachDeleteInsight (g : GraphState) (id : String) : GraphState :=
  { nodes := g.nodes.filter (fun nd => ¬ nd.id = id),
    tagEdges := g.tagEdges.filter (fun e => ¬ e.1 = id) }

/-- The ids of the Insight nodes, with multiplicity. -/
def graphNodeIds (g : GraphState) : List String := g.nodes.map (·.id)

/-- One creation step of the sweep (consistency.py:168-171): look the
id up among the fetched documents and create it in the graph.  (The id
always comes from the document id set, so the lookup never fails.) -/
def sweepCreateStep (docs : List MongoInsight) (g : GraphState)
    (id : String) : GraphState :=
  match docs.find? (fun d => d.mongoId = id) with
  | some d => create_insight_in_neo4j g d
  | none => g

/-- missing_in_neo4j = mongo_ids - neo4j_ids (consistency.py:166):
Python sets are modelled as deduplicated lists, so iteration order is a
fixed determinization of the arbitrary set order. -/
def sweepMissing (docs : List MongoInsight) (g : GraphState) :
    List String :=
  (docs.map (·.mongoId)).dedup.filter
    (fun i => ¬ i ∈ (graphNodeIds g).dedup)

/-- orphaned_in_neo4j = neo4j_ids - mongo_ids (consistency.py:174),
both sides captured before the repair loops run, as in the source. -/
def sweepOrphaned (docs : List MongoInsight) (g : GraphState) :
    List String :=
  (graphNodeIds g).dedup.filter
    (fun i => ¬ i ∈ (docs.map (·.mongoId)).dedup)

/-- perform_full_consistency_check (consistency.py:144-190): creation
of the ids missing in the graph, detach-deletion of the orphaned ids,
and finally the two logged repair counts next to the returned Python
value, which is the literal True of consistency.py:185. -/
def perform_full_consistency_check (docs : List MongoInsight)
    (g : GraphState) : GraphState × PyVal × Nat × Nat :=
  let g1 := (sweepMissing docs g).foldl (sweepCreateStep docs) g
  let g2 := (sweepOrphaned docs g).foldl detachDeleteInsight g1
  (g2, .pybool true, (sweepMissing docs g).length,
    (sweepOrphaned docs g).length)

/-- The set of document ids, as a finite set. -/
def mongoIdsFinset (docs : List MongoInsight) : Finset String :=
  (docs.map (·.mongoId)).toFinset

/-- The set of graph node ids, as a finite set. -/
def graphIdsFinset (g : GraphState) : Finset String :=
  (graphNodeIds g).toFinset

/-- The two-document store of the orphan-cleanup scenario: A and B. -/
def cleanupDocs : List MongoInsight :=
  [⟨"A", "alpha", "u1", some "t1", []⟩, ⟨"B", "beta", "u1", some "t2", []⟩]

/-- The graph of the orphan-cleanup scenario: projections A, B, C. -/
def cleanupGraph : GraphState :=
  ⟨[⟨"A", "alpha", "u1", some "t1"⟩, ⟨"B", "beta", "u1", some "t2"⟩,
    ⟨"C", "gamma", "u2", none⟩], []⟩

/-! ## Entity sync operation
(DatabaseManager.sync_insight, database.py:97-148, over the node
operations of Neo4jManager, neo4j.py:1045-1088)

Nodes written by Neo4jManager carry an arbitrary property map, so a
node is modelled as its property association list.  Cypher CREATE
appends a node unconditionally; there is no MATCH before it.
-/

/-- A Neo4j node written by Neo4jManager: its property map. -/
abbrev PropNode := List (String × PyVal)

/-- Neo4jManager.create_insight_node (neo4j.py:1045-1059): drop the
None-valued properties, add the id property, and CREATE one Insight
node with exactly those properties — an unconditional creation, not a
MERGE. -/
def create_insight_node (g : List PropNode) (insight_id : String)
    (properties : List (String × PyVal)) : List PropNode :=
  g ++ [(properties.filter (fun kv => ¬ kv.2.isNone)) ++
    [("id", .pystr insight_id)]]

/-- The Python list of tag strings as a runtime value. -/
def tagsVal (tags : List String) : PyVal := .pylist (tags.map .pystr)

/-- The properties that the create branch of sync_insight projects
(database.py:113-119): title, tags, created_at, user_id, with the
defaults of dict.get. -/
def syncCreateProps (d : MongoInsight) : List (String × PyVal) :=
  [("title", .pystr d.title), ("tags", tagsVal d.tags),
   ("created_at", .pystr (d.createdAt.getD "")),
   ("user_id", .pystr d.userId)]

/-- The graph-store write performed by sync_insight(id, create): the
call of database.py:120 into create_insight_node. -/
def sync_insight_create (d : MongoInsight) (g : List PropNode) :
    List PropNode :=
  create_insight_node g d.mongoId (syncCreateProps d)

/-- The node that one create writes. -/
def createdNode (d : MongoInsight) : PropNode :=
  (syncCreateProps d).filter (fun kv => ¬ kv.2.isNone) ++
    [("id", .pystr d.mongoId)]

/-- One observable action of the sync_insight body (run under the
lock): a graph-store write or a cache invalidation call. -/
inductive SyncEffect where
  | graphCreate : String → List (String × PyVal) → SyncEffect
  | graphUpdate : String → List (String × PyVal) → SyncEffect
  | graphDelete : String → SyncEffect
  | cacheDelete : String → SyncEffect
  | cacheInvalidatePattern : String → SyncEffect

/-- Whether an action is a cache invalidation (delete_cache or
invalidate_pattern). -/
def SyncEffect.isCacheEffect : SyncEffect → Bool
  | .cacheDelete _ => true
  | .cacheInvalidatePattern _ => true
  | _ => false

/-- The ordered store and cache calls of the sync_insight body
(database.py:111-143) once the lock step has succeeded, per
operation. -/
def syncInsightEffects (operation : String) (d : MongoInsight) :
    List SyncEffect :=
  let insight_id := d.mongoId
  if operation = "create" then
    [.graphCreate insight_id (syncCreateProps d)]
  else if operation = "update" then
    [.graphUpdate insight_id
        [("title", .pystr d.title), ("tags", tagsVal d.tags)],
     .cacheDelete ("insight:" ++ insight_id),
     .cacheInvalidatePattern ("insights:user:" ++ d.userId ++ ":*")]
  else if operation = "delete" then
    [.graphDelete insight_id,
     .cacheDelete ("insight:" ++ insight_id),
     .cacheInvalidatePattern ("insights:user:" ++ d.userId ++ ":*"),
     .cacheInvalidatePattern ("mindmap:" ++ insight_id ++ ":*")]
  else []

/-! ## The lock step of sync_insight (claim C6)

database.py:108 calls redis_client.acquire_lock with a single
positional argument, the lock name; RedisClient.acquire_lock
(redis.py:290) declares three parameters beyond self — lock_name,
lock_value and ttl — none of which has a default.  Python positional
binding for such a signature raises TypeError whenever the argument
count differs from the parameter count.
-/

/-- The parameters of RedisClient.acquire_lock after self, in order;
none has a default value (redis.py:290). -/
def acquireLockParams : List String := ["lock_name", "lock_value", "ttl"]

/-- The positional arguments passed at database.py:108: only the
formatted lock name; no generated token and no ttl. -/
def syncInsightAcquireArgs (insight_id : String) : List String :=
  ["insight:" ++ insight_id]

/-- Python positional binding for a signature without defaults, *args
or keyword arguments: succeed with the bound pairs when the counts
match, raise TypeError otherwise. -/
def pyBindPositional (params : List String) (args : List String) :
    Except String (List (String × String)) :=
  if args.length = params.length then .ok (params.zip args)
  else .error "TypeError"

/-! ## Theorems for claims C2 and C3 -/

/-- C2: acquire(name, token, ttl) returns true and stores the token at
lock:name with expiry ttl exactly when that key was absent; on a present
key it returns false and leaves the store unchanged; and when the key is
initially absent, of two acquire calls with tokens t1 and t2 serialized
in either order, exactly the first one returns true. -/
theorem acquire_lock_exclusive (st : KV) (name t1 t2 : String)
    (ttl1 ttl2 : Nat) :
    (kvLookup st (lockKey name) = none →
      acquire_lock st name t1 ttl1 =
        ((lockKey name, t1, ttl1) :: st, true)) ∧
    (∀ v, kvLookup st (lockKey name) = some v →
      acquire_lock st name t1 ttl1 = (st, false)) ∧
    (kvLookup st (lockKey name) = none →
      ((acquire_lock st name t1 ttl1).2 = true ∧
        (acquire_lock (acquire_lock st name t1 ttl1).1 name t2 ttl2).2
          = false) ∧
      ((acquire_lock st name t2 ttl2).2 = true ∧
        (acquire_lock (acquire_lock st name t2 ttl2).1 name t1 ttl1).2
          = false)) := by
  refine ⟨?_, ?_, ?_⟩
  · intro h
    simp [acquire_lock, redisSetNX, h]
  · intro v h
    simp [acquire_lock, redisSetNX, h]
  · intro h
    constructor
    · constructor
      · simp [acquire_lock, redisSetNX, h]
      · simp [acquire_lock, redisSetNX, h, kvLookup]
    · constructor
      · simp [acquire_lock, redisSetNX, h]
      · simp [acquire_lock, redisSetNX, h, kvLookup]

/-- Witness for C2 at the empty store, name k, tokens a and b. -/
theorem acquire_lock_exclusive_witness :
    (acquire_lock [] "k" "a" 30).2 = true ∧
    (acquire_lock (acquire_lock [] "k" "a" 30).1 "k" "b" 30).2 = false :=
  (((acquire_lock_exclusive [] "k" "a" "b" 30 30).2.2 rfl).1)

/-- C3: when lock:name currently stores token ta, release(name, ta)
deletes the key and returns true, while release(name, tb) for a distinct
token tb returns false and leaves the whole store untouched; release on
an absent key also returns false and changes nothing. -/
theorem release_lock_owner_only (st : KV) (name ta tb : String)
    (hab : ta ≠ tb) (hheld : redisGet st (lockKey name) = some ta) :
    release_lock st name ta = (redisDel st (lockKey name), true) ∧
    release_lock st name tb = (st, false) ∧
    (∀ st2 : KV, redisGet st2 (lockKey name) = none →
      release_lock st2 name tb = (st2, false)) := by
  refine ⟨?_, ?_, ?_⟩
  · simp [release_lock, hheld]
  · have : ¬ (some ta = some tb) := by
      intro h
      exact hab (Option.some.injEq ta tb ▸ h)
    simp [release_lock, hheld, this]
  · intro st2 h2
    simp [release_lock, h2]

/-- Witness for C3: store holding token a under lock:k, released with a
and with b. -/
theorem release_lock_owner_only_witness :
    release_lock [(lockKey "k", "a", 30)] "k" "a" =
      (redisDel [(lockKey "k", "a", 30)] (lockKey "k"), true) ∧
    release_lock [(lockKey "k", "a", 30)] "k" "b" =
      ([(lockKey "k", "a", 30)], false) :=
  ⟨(release_lock_owner_only [(lockKey "k", "a", 30)] "k" "a" "b"
      (by decide) (by rfl)).1,
   (release_lock_owner_only [(lockKey "k", "a", 30)] "k" "a" "b"
      (by decide) (by rfl)).2.1⟩

/-! ## Theorems for claims C7 and C8 -/

/-- Helper: the retry loop invokes the operation at most fuel times. -/
theorem retryLoop_calls_le (base : ℚ) (op : Nat → Except String α) :
    ∀ fuel k, (retryLoop base op k fuel).calls.length ≤ fuel := by
  intro fuel
  induction fuel with
  | zero => intro k; simp [retryLoop]
  | succ n ih =>
    intro k
    cases hop : op k with
    | ok a => simp [retryLoop, hop]
    | error e =>
      by_cases hn : n = 0
      · simp [retryLoop, hop, hn]
      · simp only [retryLoop, hop, hn, if_neg hn, List.length_cons]
        exact Nat.succ_le_succ (ih (k + 1))

/-- Helper: a run whose three attempts all fail with e1, e2, e3
re-raises e3 after sleeping base and 2*base, having called attempts
1, 2, 3. -/
theorem retry_three_failures (base : ℚ)
    (op : Nat → Except String α) (e1 e2 e3 : String)
    (h1 : op 1 = .error e1) (h2 : op 2 = .error e2)
    (h3 : op 3 = .error e3) :
    execute_with_retry 3 base op =
      ⟨.error e3, [base * 2 ^ 0, base * 2 ^ 1], [1, 2, 3]⟩ := by
  simp [execute_with_retry, retryLoop, h1, h2, h3]

/-- C8 counterexample: with the default three attempts all failing with
the message transient outage, the wrapper re-raises exactly that raw
message — the re-raised failure is the caught exception unchanged, and
in particular mentions neither an operation name nor the attempt count
3 (the claim says it is tagged with both). -/
theorem retry_reraise_untagged_cex :
    (execute_with_retry 3 (1 / 2)
        (fun _ => (.error "transient outage" : Except String Unit))).result
      = .error "transient outage" ∧
    "transient outage".toList.count '3' = 0 := by
  constructor
  · rfl
  · decide

/-- C8 amended: the wrapper invokes the operation at most maxAttempts
times; with the default maxAttempts = 3 and every attempt failing, it
sleeps base * 2^(attempt-1) after each of the first two failures, calls
attempts 1, 2, 3, and then re-raises the final attempt's failure
unchanged (no tagging with the operation name or attempt count). -/
theorem retry_backoff_and_reraise (maxAttempts : Nat) (base : ℚ)
    (op : Nat → Except String α) (e1 e2 e3 : String)
    (h1 : op 1 = .error e1) (h2 : op 2 = .error e2)
    (h3 : op 3 = .error e3) :
    (execute_with_retry maxAttempts base op).calls.length ≤ maxAttempts ∧
    execute_with_retry 3 base op =
      ⟨.error e3, [base * 2 ^ 0, base * 2 ^ 1], [1, 2, 3]⟩ :=
  ⟨retryLoop_calls_le base op maxAttempts 1,
   retry_three_failures base op e1 e2 e3 h1 h2 h3⟩

/-- Witness for C8 amended at a concrete always-failing operation. -/
theorem retry_backoff_and_reraise_witness :
    (execute_with_retry 3 1
        (fun _ => (.error "down" : Except String Unit))).calls.length ≤ 3 ∧
    execute_with_retry 3 1 (fun _ => (.error "down" : Except String Unit)) =
      ⟨.error "down", [1 * 2 ^ 0, 1 * 2 ^ 1], [1, 2, 3]⟩ :=
  retry_backoff_and_reraise 3 1
    (fun _ => (.error "down" : Except String Unit))
    "down" "down" "down" rfl rfl rfl

/-- C7 counterexample: when the store is unavailable on every attempt,
acquire_lock does not return false to the caller — it propagates the
store error (the embedded call yields an error value, not the value
ok false that the claim says the caller observes). -/
theorem acquire_lock_unavailable_raises_cex :
    acquire_lock_resilient 3 (1 / 2)
        (fun _ => .error "connection refused") =
      .error "connection refused" ∧
    acquire_lock_resilient 3 (1 / 2)
        (fun _ => .error "connection refused") ≠ .ok false := by
  constructor
  · rfl
  · intro h
    simp [acquire_lock_resilient, execute_with_retry, retryLoop] at h

/-- C7 amended: when every retry attempt fails with a transient error,
acquire_lock propagates the final store error to the caller instead of
returning a boolean; in particular it never reports the lock as
acquired (never fail open), so the caller cannot proceed as lock
holder. -/
theorem acquire_lock_fail_closed (base : ℚ)
    (op : Nat → Except String (Option String)) (e1 e2 e3 : String)
    (h1 : op 1 = .error e1) (h2 : op 2 = .error e2)
    (h3 : op 3 = .error e3) :
    acquire_lock_resilient 3 base op = .error e3 ∧
    acquire_lock_resilient 3 base op ≠ .ok true := by
  have h := retry_three_failures base op e1 e2 e3 h1 h2 h3
  constructor
  · simp [acquire_lock_resilient, h]
  · simp [acquire_lock_resilient, h]

/-- Witness for C7 amended at a concrete unavailable store. -/
theorem acquire_lock_fail_closed_witness :
    acquire_lock_resilient 3 1 (fun _ => .error "timeout") =
      .error "timeout" ∧
    acquire_lock_resilient 3 1 (fun _ => .error "timeout") ≠ .ok true :=
  acquire_lock_fail_closed 1 (fun _ => .error "timeout")
    "timeout" "timeout" "timeout" rfl rfl rfl

/-! ## Theorems for claims C5 and C10 -/

/-- C5 counterexample: a three-step batch where steps 1 and 2 each
return a pair of compensations (m1, n1) and (m2, n2) and step 3 raises.
The executor invokes n2, n1, m2, m1 — all Neo4j compensations reversed,
then all MongoDB compensations reversed — not the per-step reverse
order n2, m2, n1, m1 of the claim; in particular step 1's secondary
compensation n1 runs before step 2's primary compensation m2, so
compensations of step 2 do not all run before those of step 1. -/
theorem ensure_transaction_rollback_order_cex :
    ensure_transaction
        [.ret (.pytuple [.pyfun "m1", .pyfun "n1"]),
         .ret (.pytuple [.pyfun "m2", .pyfun "n2"]),
         .exn] =
      (false, ["n2", "n1", "m2", "m1"]) ∧
    ¬ (["n2", "n1", "m2", "m1"] = ["n2", "m2", "n1", "m1"]) := by
  constructor
  · rfl
  · decide

/-- Helper: running the executor over returned values followed by an
exception ignores everything after the exception and rolls back the
collected lists, Neo4j reversed first, MongoDB reversed second. -/
theorem ensureTransactionAux_exn (vs : List PyVal) :
    ∀ m n rest,
      ensureTransactionAux m n (vs.map StepOutcome.ret ++ .exn :: rest) =
        (false,
          rollbackLog (collectComps m n vs).1 (collectComps m n vs).2) := by
  induction vs with
  | nil => intro m n rest; simp [ensureTransactionAux, collectComps]
  | cons v vs ih =>
    intro m n rest
    simp only [List.map_cons, List.cons_append, ensureTransactionAux,
      collectComps]
    exact ih (stepAccum m n v).1 (stepAccum m n v).2 rest

/-- Helper: a batch with no exception succeeds with an empty rollback
log. -/
theorem ensureTransactionAux_ok (vs : List PyVal) :
    ∀ m n, ensureTransactionAux m n (vs.map StepOutcome.ret) = (true, []) := by
  induction vs with
  | nil => intro m n; simp [ensureTransactionAux]
  | cons v vs ih =>
    intro m n
    simp only [List.map_cons, ensureTransactionAux]
    exact ih (stepAccum m n v).1 (stepAccum m n v).2

/-- C5 amended: steps run strictly in order and execution stops at the
first exception (everything after it is ignored, and the failing step
contributes no compensation); the rollback then invokes all collected
secondary-store (Neo4j) compensations in reverse step order and after
them all primary-store (MongoDB) compensations in reverse step order —
each step's secondary compensation still precedes its own primary
compensation, but a later step's primary compensation runs after an
earlier step's secondary compensation, so the rollback is grouped per
store rather than fully ordered by step; a batch without failure
returns true and rolls back nothing. -/
theorem ensure_transaction_grouped_rollback (vs : List PyVal)
    (rest : List StepOutcome) :
    ensure_transaction (vs.map StepOutcome.ret ++ .exn :: rest) =
      (false,
        invokeAll (collectComps [] [] vs).2.reverse ++
          invokeAll (collectComps [] [] vs).1.reverse) ∧
    ensure_transaction (vs.map StepOutcome.ret) = (true, []) :=
  ⟨ensureTransactionAux_exn vs [] [] rest,
   ensureTransactionAux_ok vs [] []⟩

/-- C10: a step whose returned value is not exactly a two-element tuple
is treated as successful and contributes no compensation: the run
continues exactly as if the step's result had not been inspected, so a
rollback triggered by a later failure does not undo that step. -/
theorem non_pair_step_no_compensation (v : PyVal)
    (hv : v.isPair = false) (m n : List PyVal)
    (rest : List StepOutcome) :
    ensureTransactionAux m n (.ret v :: rest) =
      ensureTransactionAux m n rest := by
  have hacc : stepAccum m n v = (m, n) := by
    cases v with
    | pytuple l =>
      match l with
      | [] => rfl
      | [a] => rfl
      | a :: b :: c :: t => rfl
      | [a, b] => exact absurd hv (by simp [PyVal.isPair])
    | pynone => rfl
    | pybool b => rfl
    | pystr s => rfl
    | pyint k => rfl
    | pylist l2 => rfl
    | pydict d => rfl
    | pyfun f => rfl
  simp [ensureTransactionAux, hacc]

/-- Witness for C10: a step returning None before a failing step leaves
the rollback log empty. -/
theorem non_pair_step_no_compensation_witness :
    PyVal.pynone.isPair = false ∧
    ensureTransactionAux [] [] [.ret .pynone, .exn] =
      ensureTransactionAux [] [] [.exn] :=
  ⟨rfl, non_pair_step_no_compensation .pynone rfl [] [] [.exn]⟩

/-! ## Theorems for claim C1 -/

/-- Helper: merging tag edges never changes the node list. -/
theorem mergeTagEdge_nodes (g : GraphState) (id tag : String) :
    (mergeTagEdge g id tag).nodes = g.nodes := by
  unfold mergeTagEdge
  split <;> rfl

/-- Helper: the tag loop of a creation never changes the node list. -/
theorem foldTags_nodes (id : String) :
    ∀ (ts : List String) (g : GraphState),
      (ts.foldl (fun acc tag => mergeTagEdge acc id tag) g).nodes = g.nodes := by
  intro ts
  induction ts with
  | nil => intro g; rfl
  | cons t ts ih =>
    intro g
    simp only [List.foldl_cons]
    rw [ih, mergeTagEdge_nodes]

/-- Helper: a creation appends exactly one node, carrying the document
id. -/
theorem create_insight_nodes (g : GraphState) (doc : MongoInsight) :
    (create_insight_in_neo4j g doc).nodes =
      g.nodes ++ [⟨doc.mongoId, doc.title, doc.userId, doc.createdAt⟩] := by
  unfold create_insight_in_neo4j
  rw [foldTags_nodes]

/-- Helper: membership in the node ids after the creation loop. -/
theorem mem_graphNodeIds_createAll (docs : List MongoInsight) (x : String) :
    ∀ (ms : List String) (g : GraphState),
      (∀ i ∈ ms, ∃ d ∈ docs, d.mongoId = i) →
      (x ∈ graphNodeIds (ms.foldl (sweepCreateStep docs) g) ↔
        x ∈ graphNodeIds g ∨ x ∈ ms) := by
  intro ms
  induction ms with
  | nil => intro g _; simp
  | cons i ms ih =>
    intro g hms
    obtain ⟨d, hd, hdi⟩ := hms i (List.mem_cons_self i ms)
    have hfind : ∃ d', docs.find? (fun d' => d'.mongoId = i) = some d' := by
      have : (docs.find? (fun d' => d'.mongoId = i)).isSome := by
        rw [List.find?_isSome]
        exact ⟨d, hd, by simp [hdi]⟩
      exact Option.isSome_iff_exists.mp this
    obtain ⟨d', hd'⟩ := hfind
    have hid : d'.mongoId = i := by
      have := List.find?_some hd'
      simpa using this
    have hstep : sweepCreateStep docs g i = create_insight_in_neo4j g d' := by
      simp [sweepCreateStep, hd']
    simp only [List.foldl_cons, hstep]
    rw [ih _ (fun j hj => hms j (List.mem_cons_of_mem i hj))]
    have hids : graphNodeIds (create_insight_in_neo4j g d') =
        graphNodeIds g ++ [i] := by
      simp [graphNodeIds, create_insight_nodes, hid]
    rw [hids]
    simp [or_assoc, List.mem_cons]

/-- Helper: membership in the node ids after one detach-delete. -/
theorem mem_graphNodeIds_detachDelete (g : GraphState) (a x : String) :
    x ∈ graphNodeIds (detachDeleteInsight g a) ↔
      x ∈ graphNodeIds g ∧ ¬ x = a := by
  simp only [graphNodeIds, detachDeleteInsight, List.mem_map,
    List.mem_filter, decide_not]
  constructor
  · rintro ⟨nd, ⟨hnd, hne⟩, hx⟩
    simp only [Bool.not_eq_eq_eq_not, Bool.not_true, decide_eq_false_iff_not]
      at hne
    exact ⟨⟨nd, hnd, hx⟩, hx ▸ hne⟩
  · rintro ⟨⟨nd, hnd, hx⟩, hne⟩
    refine ⟨nd, ⟨hnd, ?_⟩, hx⟩
    simp only [Bool.not_eq_eq_eq_not, Bool.not_true, decide_eq_false_iff_not]
    rw [hx]
    exact hne

/-- Helper: membership in the node ids after the deletion loop. -/
theorem mem_graphNodeIds_deleteAll (x : String) :
    ∀ (os : List String) (g : GraphState),
      x ∈ graphNodeIds (os.foldl detachDeleteInsight g) ↔
        x ∈ graphNodeIds g ∧ ¬ x ∈ os := by
  intro os
  induction os with
  | nil => intro g; simp
  | cons a os ih =>
    intro g
    simp only [List.foldl_cons]
    rw [ih, mem_graphNodeIds_detachDelete]
    simp [List.mem_cons, not_or, and_assoc]

/-- Helper: the length of the deduplicated difference of two lists is
the cardinality of the difference of their finite sets. -/
theorem length_dedup_filter_sdiff (l1 l2 : List String) :
    (l1.dedup.filter (fun i => ¬ i ∈ l2.dedup)).length =
      (l1.toFinset \ l2.toFinset).card := by
  have hnodup : (l1.dedup.filter (fun i => ¬ i ∈ l2.dedup)).Nodup :=
    (List.nodup_dedup l1).filter _
  rw [← List.toFinset_card_of_nodup hnodup]
  congr 1
  ext x
  simp [List.mem_toFinset, List.mem_filter, List.mem_dedup,
    Finset.mem_sdiff]

/-- Helper: membership in the node ids of the graph produced by one
full sweep coincides with membership in the document id list. -/
theorem mem_graphNodeIds_sweep (docs : List MongoInsight)
    (g : GraphState) (x : String) :
    x ∈ graphNodeIds (perform_full_consistency_check docs g).1 ↔
      x ∈ docs.map (·.mongoId) := by
  have hpre : ∀ i ∈ sweepMissing docs g, ∃ d ∈ docs, d.mongoId = i := by
    intro i hi
    have : i ∈ (docs.map (·.mongoId)).dedup := (List.mem_filter.mp hi).1
    rw [List.mem_dedup, List.mem_map] at this
    obtain ⟨d, hd, hdi⟩ := this
    exact ⟨d, hd, hdi⟩
  show x ∈ graphNodeIds ((sweepOrphaned docs g).foldl detachDeleteInsight
      ((sweepMissing docs g).foldl (sweepCreateStep docs) g)) ↔ _
  rw [mem_graphNodeIds_deleteAll, mem_graphNodeIds_createAll docs x _ _ hpre]
  have hmiss : x ∈ sweepMissing docs g ↔
      x ∈ docs.map (·.mongoId) ∧ ¬ x ∈ graphNodeIds g := by
    simp [sweepMissing, List.mem_filter, List.mem_dedup]
  have horph : x ∈ sweepOrphaned docs g ↔
      x ∈ graphNodeIds g ∧ ¬ x ∈ docs.map (·.mongoId) := by
    simp [sweepOrphaned, List.mem_filter, List.mem_dedup]
  rw [hmiss, horph]
  tauto

/-- C1 amended: one run of the full reconciliation sweep creates a
graph projection for every document id absent from the graph and
detach-deletes the graph nodes of every orphaned id, so that the graph
id set afterwards is exactly the document id set; the two repair counts
are the cardinalities of the two set differences, but they are only
logged — the function's return value is the boolean True, not a
created/removed record. -/
theorem full_consistency_check_converges (docs : List MongoInsight)
    (g : GraphState) :
    graphIdsFinset (perform_full_consistency_check docs g).1 =
      mongoIdsFinset docs ∧
    (perform_full_consistency_check docs g).2.2.1 =
      (mongoIdsFinset docs \ graphIdsFinset g).card ∧
    (perform_full_consistency_check docs g).2.2.2 =
      (graphIdsFinset g \ mongoIdsFinset docs).card ∧
    (perform_full_consistency_check docs g).2.1 = .pybool true := by
  refine ⟨?_, ?_, ?_, rfl⟩
  · apply Finset.ext
    intro x
    simp only [graphIdsFinset, mongoIdsFinset, List.mem_toFinset]
    exact mem_graphNodeIds_sweep docs g x
  · exact length_dedup_filter_sdiff (docs.map (·.mongoId)) (graphNodeIds g)
  · exact length_dedup_filter_sdiff (graphNodeIds g) (docs.map (·.mongoId))

/-- C1 counterexample: with documents A, B and graph projections
A, B, C, the sweep does leave the graph holding exactly A and B and
does count 0 creations and 1 removal, but its return value is the
Python boolean True — not the record with fields created = 0 and
removed = 1 that the claim says it returns. -/
theorem full_consistency_check_returns_bool_cex :
    graphNodeIds (perform_full_consistency_check cleanupDocs
        cleanupGraph).1 = ["A", "B"] ∧
    (perform_full_consistency_check cleanupDocs cleanupGraph).2.2 =
      (0, 1) ∧
    (perform_full_consistency_check cleanupDocs cleanupGraph).2.1 =
      .pybool true ∧
    ¬ ((perform_full_consistency_check cleanupDocs cleanupGraph).2.1 =
      .pydict [("created", .pyint 0), ("removed", .pyint 1)]) := by
  refine ⟨by decide, by decide, rfl, ?_⟩
  intro h
  exact PyVal.noConfusion h

/-! ## Theorems for claims C4 and C9 -/

/-- C4 counterexample: for a concrete insight and an empty graph store,
running the create write of sync_insight twice does not yield the state
of running it once — the second run appends a second node with the same
id property. -/
theorem sync_create_not_idempotent_cex :
    sync_insight_create ⟨"A", "t", "u", some "c", []⟩
        (sync_insight_create ⟨"A", "t", "u", some "c", []⟩ []) ≠
      sync_insight_create ⟨"A", "t", "u", some "c", []⟩ [] := by
  intro h
  have hlen := congrArg List.length h
  simp [sync_insight_create, create_insight_node] at hlen

/-- C4 amended: the create/update graph write of
sync_insight(id, create) is an unconditional Cypher CREATE, not an
upsert: repeating it appends one more node carrying the same id
property, so the graph state after two calls is never the state after
one call (it holds one extra node). -/
theorem sync_create_appends_duplicate (d : MongoInsight)
    (g : List PropNode) :
    sync_insight_create d (sync_insight_create d g) =
      sync_insight_create d g ++ [createdNode d] ∧
    (sync_insight_create d (sync_insight_create d g)).length =
      g.length + 2 ∧
    sync_insight_create d (sync_insight_create d g) ≠
      sync_insight_create d g := by
  refine ⟨rfl, ?_, ?_⟩
  · simp [sync_insight_create, create_insight_node]
  · intro h
    have hlen := congrArg List.length h
    simp [sync_insight_create, create_insight_node] at hlen

/-- C9 counterexample: at a concrete insight (id A, owner u), the
create branch of sync_insight performs no cache invalidation at all,
and the update branch invalidates only insight:A and
insights:user:u:* — the pattern mindmap:A:* is never invalidated on
update, contrary to the claim that every intent invalidates all three
key patterns. -/
theorem sync_insight_invalidation_cex :
    (syncInsightEffects "create" ⟨"A", "t", "u", some "c", []⟩).filter
        (fun e => e.isCacheEffect) = [] ∧
    (syncInsightEffects "update" ⟨"A", "t", "u", some "c", []⟩).filter
        (fun e => e.isCacheEffect) =
      [.cacheDelete "insight:A",
       .cacheInvalidatePattern "insights:user:u:*"] := by
  constructor
  · rfl
  · rfl

/-- C9 amended: after the graph-store write, the sync_insight body
invalidates no cache entry on create; invalidates insight:id and
insights:user:owner:* (in that order) on update; and invalidates
insight:id, insights:user:owner:* and mindmap:id:* (in that order) on
delete. -/
theorem sync_insight_invalidations (d : MongoInsight) :
    syncInsightEffects "create" d =
      [.graphCreate d.mongoId (syncCreateProps d)] ∧
    syncInsightEffects "update" d =
      [.graphUpdate d.mongoId
          [("title", .pystr d.title), ("tags", tagsVal d.tags)],
       .cacheDelete ("insight:" ++ d.mongoId),
       .cacheInvalidatePattern ("insights:user:" ++ d.userId ++ ":*")] ∧
    syncInsightEffects "delete" d =
      [.graphDelete d.mongoId,
       .cacheDelete ("insight:" ++ d.mongoId),
       .cacheInvalidatePattern ("insights:user:" ++ d.userId ++ ":*"),
       .cacheInvalidatePattern ("mindmap:" ++ d.mongoId ++ ":*")] :=
  ⟨rfl, rfl, rfl⟩

/-- C6: the sync_insight lock step does not generate a fresh token at
all — it passes a single positional argument to acquire_lock, whose
signature requires three, so the embedded call raises TypeError for
every entity id: no token is ever created, passed, or available for the
release in the finally block. -/
theorem sync_insight_acquire_call_type_error (insight_id : String) :
    pyBindPositional acquireLockParams
        (syncInsightAcquireArgs insight_id) = .error "TypeError" ∧
    (syncInsightAcquireArgs insight_id).length = 1 ∧
    acquireLockParams.length = 3 :=
  ⟨rfl, rfl, rfl⟩

end InsightTracker
